import Mathlib

/-
Verification of the layered network diagnostic tool (network_tester.py)
against its natural-language specification.

The probes and the diagnostic run are shallowly embedded: the outcome of
every external interaction (the ping subprocess, the TCP connect call,
the interface query, the local SSL-context construction, DNS resolution)
is a field of a `World` value, and the run is a pure function of the
world that mirrors the source line by line.
-/

namespace NetTester

/-- Outcome of one invocation of the ping subprocess
(subprocess.run of ping with a single packet): either the process
completed with a return code and captured stderr text, or the call
raised an exception carrying a message (for example a timeout). -/
inductive SubprocessResult where
  | completed (returncode : Int) (stderr : String)
  | raised (msg : String)
deriving DecidableEq, Repr

/-- A ping-style failure: nonzero return code or a raised exception. -/
def SubprocessResult.failed : SubprocessResult → Bool
  | .completed rc _ => rc != 0
  | .raised _ => true

/-- Python str.strip with no argument: the string with leading and
trailing whitespace removed. -/
def strip (s : String) : String :=
  String.mk (((s.data.dropWhile Char.isWhitespace).reverse.dropWhile
    Char.isWhitespace).reverse)

/-- Embedding of ping_host: on return code 0 it reports success with no
error; on a nonzero return code it reports failure with the stripped
stderr text; on any exception it reports failure with the exception
text. It never propagates the exception. -/
def ping_host : SubprocessResult → Bool × Option String
  | .completed rc stderr => if rc == 0 then (true, none) else (false, some (strip stderr))
  | .raised msg => (false, some msg)

/-- Outcome of one socket.create_connection call: either the connection
was established (with the measured elapsed milliseconds) or the call
raised an exception carrying a message (timeout, refused, unreachable,
resolution failure). -/
inductive ConnectResult where
  | connected (elapsedMs : Int)
  | raised (msg : String)
deriving DecidableEq, Repr

/-- A connection-style failure: the underlying call raised. -/
def ConnectResult.failed : ConnectResult → Bool
  | .connected _ => false
  | .raised _ => true

/-- Embedding of tcp_connect: on success it reports the rounded elapsed
milliseconds as latency; on any exception it reports failure with the
exception text and no latency. It never propagates the exception. -/
def tcp_connect : ConnectResult → Bool × Option Int × Option String
  | .connected ms => (true, some ms, none)
  | .raised msg => (false, none, some msg)

/-- The external world one diagnostic run observes: the outcome of each
external interaction the script performs, plus facts about the host that
the script could have consulted but may ignore (the actual default
gateway, and what a TLS handshake to the target would have done). -/
structure World where
  /-- The default gateway IP actually configured on the host. The
  script never queries it. -/
  default_gateway : String
  /-- Result of the environment-classification heuristic. -/
  env : String
  /-- The psutil interface query: error message, or whether at least
  one interface is up. -/
  net_if_stats : Except String Bool
  /-- Outcome of the ping subprocess run against the layer-2 target. -/
  ping_gateway_ip : SubprocessResult
  /-- Outcome of the ping subprocess run against 8.8.8.8. -/
  ping_public_ip : SubprocessResult
  /-- Outcome of socket.create_connection to example.com port 443. -/
  tcp_example : ConnectResult
  /-- Outcome of the local ssl.create_default_context call: none on
  success, or the exception message. -/
  ssl_context : Option String
  /-- Whether a TLS handshake to example.com port 443 would have
  completed. The script never attempts one. -/
  tls_handshake_ok : Bool
  /-- Outcome of socket.gethostbyname of example.com: resolved IP or
  the exception message. -/
  dns_example : Except String String

/-- The hardcoded layer-2 ping target (source line 129). -/
def gateway_ip : String := "192.168.50.1"

/-- The fixed public probe IP used for layer 3. -/
def public_probe_ip : String := "8.8.8.8"

/-- The fixed target host used for layers 4 and 7. -/
def target_host : String := "example.com"

/-- The address the layer-2 probe actually pings: the hardcoded
constant, independent of the world (source line 129). -/
def layer2_ping_target (_w : World) : String := gateway_ip

/-- Layer 1 passed: the interface query succeeded and reported at least
one interface up; an exception counts as failure. -/
def layer1_passed (w : World) : Bool :=
  match w.net_if_stats with
  | .ok up => up
  | .error _ => false

/-- Layer 2 passed: the ping of the hardcoded gateway address succeeded. -/
def layer2_passed (w : World) : Bool := (ping_host w.ping_gateway_ip).1

/-- Layer 3 passed: the ping of 8.8.8.8 succeeded. -/
def layer3_passed (w : World) : Bool := (ping_host w.ping_public_ip).1

/-- Layer 4 passed: the TCP connection to example.com port 443 succeeded. -/
def layer4_passed (w : World) : Bool := (tcp_connect w.tcp_example).1

/-- The issues list as it stands after the layer-4 block (the order the
source appends layer labels in). -/
def issues_after4 (w : World) : List String :=
  (if layer1_passed w then [] else ["Layer 1 - Physical"]) ++
  (if layer2_passed w then [] else ["Layer 2 - Data Link"]) ++
  (if layer3_passed w then [] else ["Layer 3 - Network"]) ++
  (if layer4_passed w then [] else ["Layer 4 - Transport"])

/-- Layer 5 passed: the source records the session layer as healthy
exactly when the transport label is absent from the issues list so far
(source line 168). -/
def layer5_passed (w : World) : Bool :=
  !((issues_after4 w).contains "Layer 4 - Transport")

/-- Layer 6 passed: the local ssl.create_default_context call did not
raise (source lines 178 to 189); no network interaction is involved. -/
def layer6_passed (w : World) : Bool := w.ssl_context.isNone

/-- Layer 7 passed: DNS resolution of example.com returned an address. -/
def layer7_passed (w : World) : Bool :=
  match w.dns_example with
  | .ok _ => true
  | .error _ => false

/-- The complete issues list accumulated over the seven layer blocks. -/
def issues_all (w : World) : List String :=
  (if layer1_passed w then [] else ["Layer 1 - Physical"]) ++
  (if layer2_passed w then [] else ["Layer 2 - Data Link"]) ++
  (if layer3_passed w then [] else ["Layer 3 - Network"]) ++
  (if layer4_passed w then [] else ["Layer 4 - Transport"]) ++
  (if layer5_passed w then [] else ["Layer 5 - Session"]) ++
  (if layer6_passed w then [] else ["Layer 6 - Presentation"]) ++
  (if layer7_passed w then [] else ["Layer 7 - Application"])

/-- Python dict assignment on the layer_results dictionary: replace the
value when the key is present, otherwise append (dicts preserve
insertion order). -/
def dict_set (d : List (String × Bool)) (k : String) (v : Bool) :
    List (String × Bool) :=
  if d.any (fun p => p.1 == k) then
    d.map (fun p => if p.1 == k then (p.1, v) else p)
  else d ++ [(k, v)]

/-- The layer_results dictionary after one run, built by the seven
assignments in source order from an empty dictionary. -/
def layer_results_run (w : World) : List (String × Bool) :=
  dict_set (dict_set (dict_set (dict_set (dict_set (dict_set (dict_set []
    "1 - Physical" (layer1_passed w))
    "2 - Data Link" (layer2_passed w))
    "3 - Network" (layer3_passed w))
    "4 - Transport" (layer4_passed w))
    "5 - Session" (layer5_passed w))
    "6 - Presentation" (layer6_passed w))
    "7 - Application" (layer7_passed w)

/-- The canonical ordered layer labels used as dictionary keys. -/
def osi_layers : List String :=
  ["1 - Physical", "2 - Data Link", "3 - Network", "4 - Transport",
   "5 - Session", "6 - Presentation", "7 - Application"]

/-- One observable step of the run, in program order: recording a layer
result, performing a network operation on behalf of a layer, the
analysis section, the report file write, the OSI overview print, setting
the spinner flag to false, joining the spinner thread, and the final
completion message. -/
inductive Event where
  | probe (layer : String)
  | net (layer : String) (op : String) (target : String)
  | analysisSection
  | fileWrite
  | osiOverview
  | spinnerStop
  | spinnerJoin
  | reportDone
deriving DecidableEq, BEq, Repr

/-- The layer label of a probe-recording event, if it is one. -/
def Event.layerOfProbe : Event → Option String
  | .probe l => some l
  | _ => none

/-- The layer label of a network-operation event, if it is one. -/
def Event.netLayer : Event → Option String
  | .net l _ _ => some l
  | _ => none

/-- The ordered event trace of one run. The source is straight-line
code: every layer block executes unconditionally in ascending order, and
only the logged text, not the set of steps, depends on the world. -/
def events_run (_w : World) : List Event :=
  [Event.probe "1 - Physical",
   Event.net "2 - Data Link" "ping" gateway_ip,
   Event.probe "2 - Data Link",
   Event.net "3 - Network" "ping" public_probe_ip,
   Event.probe "3 - Network",
   Event.net "4 - Transport" "tcp_connect" "example.com:443",
   Event.probe "4 - Transport",
   Event.probe "5 - Session",
   Event.probe "6 - Presentation",
   Event.net "7 - Application" "dns" target_host,
   Event.probe "7 - Application",
   Event.analysisSection,
   Event.fileWrite,
   Event.osiOverview,
   Event.spinnerStop,
   Event.spinnerJoin,
   Event.reportDone]

/-- The fixed message the analysis section logs when no layer failed
(source line 214). -/
def all_passed_msg : String :=
  "✅ All network layers passed. No immediate issues detected."

/-- The suggestion messages logged for one entry of the issues list: the
if/elif ladder of source lines 216 to 230, with no else branch. -/
def suggestion (layer : String) : List String :=
  if layer == "Layer 1 - Physical" then
    ["- Check your physical network adapter, ensure airplane mode is off and cables are connected."]
  else if layer == "Layer 2 - Data Link" then
    ["- Check your local network connection (Wi-Fi/cable, router power)."]
  else if layer == "Layer 3 - Network" then
    ["- Your network may be blocked from reaching public IPs. Check firewall or routing policies."]
  else if layer == "Layer 4 - Transport" then
    ["- TCP connections to the internet are failing. Possible proxy or enterprise firewall blocking."]
  else if layer == "Layer 5 - Session" then
    ["- Session layer issue: This layer manages sessions between applications, and typically depends on successful TCP connections. Check if your organization blocks specific sessions or protocols."]
  else if layer == "Layer 6 - Presentation" then
    ["- TLS/SSL errors may indicate outdated libraries or incorrect system time."]
  else if layer == "Layer 7 - Application" then
    ["- DNS resolution failed. Check DNS settings or try another DNS server like 8.8.8.8."]
  else []

/-- The messages the analysis section logs about the issues list: the
fixed all-passed message when the list is empty, otherwise one
suggestion per recorded issue in order (source lines 213 to 230). -/
def analysis_run (w : World) : List String :=
  if issues_all w = [] then [all_passed_msg]
  else ((issues_all w).map suggestion).flatten

/-- The inference the Root-Cause Engine yields: an explanation, a
recovery action, and optional advice. -/
structure InferenceResult where
  explanation : String
  recovery : String
  advice : Option String
deriving DecidableEq, Repr

/-- What one full run leaves behind: the issues list, the
layer_results dictionary, the analysis-section messages, the ordered
event trace, and the value the function returns to its caller. The
source function falls off its end after the final input prompt without
a return statement, so its return value is None, modelled as none. -/
structure Run where
  issues : List String
  layer_results : List (String × Bool)
  analysis : List String
  events : List Event
  returns : Option (List (String × Bool) × InferenceResult)

/-- Embedding of run_diagnostics: one diagnostic pass over a world. -/
def run_diagnostics (w : World) : Run where
  issues := issues_all w
  layer_results := layer_results_run w
  analysis := analysis_run w
  events := events_run w
  returns := none

/-- The seven OSI layers, ordered by identifier. -/
inductive Layer where
  | physical
  | dataLink
  | network
  | transport
  | session
  | presentation
  | application
deriving DecidableEq, Repr

/-- One entry of the prioritized rule table: a predicate over the
failure set and the inference it yields when it is the first match. -/
structure RootCauseRule where
  applies : Finset Layer → Bool
  result : InferenceResult

/-- Modelled from the spec: the fixed all-passed inference with empty
recovery and no advice, returned when the failure set is empty. The
Root-Cause Engine itself (the tests call it final_root_cause_analysis)
is absent from the sources. -/
def all_passed_result : InferenceResult :=
  { explanation := "All network layers passed; no issues detected."
    recovery := ""
    advice := none }

/-- Modelled from the spec: the generic fallback inference for an
uncommon failure pattern no rule matches. -/
def fallback_result : InferenceResult :=
  { explanation := "Uncommon failure pattern."
    recovery := "Apply general network troubleshooting."
    advice := none }

/-- Modelled from the spec: the inference of rule 1 (exactly the
Physical layer failed). -/
def rule1_result : InferenceResult :=
  { explanation := "Physical interface failure."
    recovery := "Check the network adapter, airplane mode and cables."
    advice := none }

/-- Modelled from the spec: the inference of rule 2 (exactly the Data
Link layer failed). -/
def rule2_result : InferenceResult :=
  { explanation := "Local link failure: gateway unreachable."
    recovery := "Check Wi-Fi or cable and router power."
    advice := none }

/-- Modelled from the spec: the inference of rule 3 (exactly the
Network layer failed). -/
def rule3_result : InferenceResult :=
  { explanation := "Internet unreachable beyond the gateway."
    recovery := "Check the modem or contact the ISP."
    advice := none }

/-- Modelled from the spec: the inference of rule 4 (exactly the
Transport layer failed). -/
def rule4_result : InferenceResult :=
  { explanation := "TCP connections are blocked."
    recovery := "Check firewall or proxy settings."
    advice := none }

/-- Modelled from the spec: the inference of rule 5 (exactly the
Session layer failed). -/
def rule5_result : InferenceResult :=
  { explanation := "Session establishment failure."
    recovery := "Check session-level services and VPN software."
    advice := none }

/-- Modelled from the spec: the inference of rule 6 (exactly the
Presentation layer failed). -/
def rule6_result : InferenceResult :=
  { explanation := "TLS or SSL failure."
    recovery := "Check SSL libraries and the system clock."
    advice := none }

/-- Modelled from the spec: the inference of rule 7 (exactly the
Application layer failed). -/
def rule7_result : InferenceResult :=
  { explanation := "DNS resolution failure."
    recovery := "Check DNS settings or use another DNS server."
    advice := none }

/-- Modelled from the spec: the inference of rule 8 (total local
failure: the failure set contains Physical, Data Link and Network). -/
def rule8_result : InferenceResult :=
  { explanation := "Total local failure: no local network connectivity."
    recovery := "Check physical connectivity and restart the router."
    advice := none }

/-- Modelled from the spec: the inference of rule 9 (post-gateway
filtering). -/
def rule9_result : InferenceResult :=
  { explanation := "Post-gateway filtering: traffic blocked beyond the local network."
    recovery := "Check enterprise firewall or ISP filtering."
    advice := none }

/-- Modelled from the spec: the inference of rule 10 (combined TCP and
DNS block). -/
def rule10_result : InferenceResult :=
  { explanation := "Combined TCP and DNS block."
    recovery := "Check proxy and DNS configuration."
    advice := none }

/-- Modelled from the spec: the inference of rule 11 (TLS-only
inspection). -/
def rule11_result : InferenceResult :=
  { explanation := "TLS-only inspection or interception."
    recovery := "Check TLS interception devices on the path."
    advice := none }

/-- Modelled from the spec: the inference of rule 12 (DNS-only
failure). -/
def rule12_result : InferenceResult :=
  { explanation := "DNS-only failure."
    recovery := "Switch to another DNS server."
    advice := none }

/-- Modelled from the spec: the inference of rule 13 (session and
presentation failure above a healthy transport). -/
def rule13_result : InferenceResult :=
  { explanation := "Session and presentation failure above a healthy transport."
    recovery := "Check VPN and TLS configuration."
    advice := none }

/-- Modelled from the spec: the inference of rule 14 (presentation and
application failure). -/
def rule14_result : InferenceResult :=
  { explanation := "Presentation and application failure."
    recovery := "Check TLS and DNS configuration."
    advice := none }

/-- Modelled from the spec: the prioritized, ordered rule table of the
Root-Cause Engine (rules 1 to 14; the engine, which the tests call
final_root_cause_analysis, is absent from the sources). The pass set
is the complement of the failure set, so a requirement that the pass
set contain a layer is encoded as that layer being absent from the
failure set. -/
def rules : List RootCauseRule :=
  [{ applies := fun s => decide (s = {Layer.physical}), result := rule1_result },
   { applies := fun s => decide (s = {Layer.dataLink}), result := rule2_result },
   { applies := fun s => decide (s = {Layer.network}), result := rule3_result },
   { applies := fun s => decide (s = {Layer.transport}), result := rule4_result },
   { applies := fun s => decide (s = {Layer.session}), result := rule5_result },
   { applies := fun s => decide (s = {Layer.presentation}), result := rule6_result },
   { applies := fun s => decide (s = {Layer.application}), result := rule7_result },
   { applies := fun s => decide ({Layer.physical, Layer.dataLink, Layer.network} ⊆ s),
     result := rule8_result },
   { applies := fun s =>
       decide ({Layer.network, Layer.transport, Layer.session, Layer.presentation} ⊆ s ∧
         Layer.physical ∉ s ∧ Layer.dataLink ∉ s),
     result := rule9_result },
   { applies := fun s => decide (s = {Layer.transport, Layer.application}),
     result := rule10_result },
   { applies := fun s => decide (s = {Layer.presentation} ∧ Layer.transport ∉ s),
     result := rule11_result },
   { applies := fun s =>
       decide (s = {Layer.application} ∧ Layer.physical ∉ s ∧ Layer.dataLink ∉ s ∧
         Layer.network ∉ s ∧ Layer.transport ∉ s ∧ Layer.session ∉ s ∧
         Layer.presentation ∉ s),
     result := rule12_result },
   { applies := fun s =>
       decide (s = {Layer.session, Layer.presentation} ∧ Layer.physical ∉ s ∧
         Layer.dataLink ∉ s ∧ Layer.network ∉ s ∧ Layer.transport ∉ s),
     result := rule13_result },
   { applies := fun s =>
       decide (s = {Layer.presentation, Layer.application} ∧ Layer.physical ∉ s ∧
         Layer.dataLink ∉ s ∧ Layer.network ∉ s ∧ Layer.transport ∉ s ∧
         Layer.session ∉ s),
     result := rule14_result }]

/-- Modelled from the spec: the Root-Cause Engine, a pure function of
the failure set (the pass set being its complement). An empty failure
set short-circuits to the fixed all-passed inference; otherwise the
first matching rule of the prioritized table wins, and the generic
fallback applies when no rule matches. -/
def infer_root_cause (failed : Finset Layer) : InferenceResult :=
  if failed = ∅ then all_passed_result
  else
    match rules.find? (fun r => r.applies failed) with
    | some r => r.result
    | none => fallback_result

/-- A world in which every probe succeeds. -/
def w_all_ok : World where
  default_gateway := "192.168.50.1"
  env := "home"
  net_if_stats := Except.ok true
  ping_gateway_ip := SubprocessResult.completed 0 ""
  ping_public_ip := SubprocessResult.completed 0 ""
  tcp_example := ConnectResult.connected 23
  ssl_context := none
  tls_handshake_ok := true
  dns_example := Except.ok "93.184.216.34"

/-- A world in which every network interaction fails but the local SSL
context still builds. -/
def w_net_down : World where
  default_gateway := "192.168.50.1"
  env := "unknown"
  net_if_stats := Except.ok false
  ping_gateway_ip := SubprocessResult.raised "timed out"
  ping_public_ip := SubprocessResult.completed 1 "ping: Network is unreachable"
  tcp_example := ConnectResult.raised "timed out"
  ssl_context := none
  tls_handshake_ok := false
  dns_example := Except.error "Name or service not known"

/-- A world whose actual default gateway differs from the hardcoded
ping target while everything succeeds. -/
def w_other_gateway : World where
  default_gateway := "10.0.0.1"
  env := "enterprise"
  net_if_stats := Except.ok true
  ping_gateway_ip := SubprocessResult.completed 0 ""
  ping_public_ip := SubprocessResult.completed 0 ""
  tcp_example := ConnectResult.connected 31
  ssl_context := none
  tls_handshake_ok := true
  dns_example := Except.ok "93.184.216.34"

/-- A world in which the local SSL context builds but a TLS handshake
to the target host would have failed. -/
def w_tls_broken : World where
  default_gateway := "192.168.50.1"
  env := "home"
  net_if_stats := Except.ok true
  ping_gateway_ip := SubprocessResult.completed 0 ""
  ping_public_ip := SubprocessResult.completed 0 ""
  tcp_example := ConnectResult.connected 23
  ssl_context := none
  tls_handshake_ok := false
  dns_example := Except.ok "93.184.216.34"

theorem layer5_eq_layer4 (w : World) : layer5_passed w = layer4_passed w := by
  unfold layer5_passed issues_after4
  cases h1 : layer1_passed w <;> cases h2 : layer2_passed w <;>
    cases h3 : layer3_passed w <;> cases h4 : layer4_passed w <;> decide

theorem analysis_run_ne_nil (w : World) : analysis_run w ≠ [] := by
  unfold analysis_run issues_all
  rw [layer5_eq_layer4 w]
  cases h1 : layer1_passed w <;> cases h2 : layer2_passed w <;>
    cases h3 : layer3_passed w <;> cases h4 : layer4_passed w <;>
    cases h6 : layer6_passed w <;> cases h7 : layer7_passed w <;> decide

/-- C1: when the failure set is empty the analysis section logs only the
fixed all-passed message, producing no per-layer suggestion and no
fallback, and the spec-modelled Root-Cause Engine short-circuits on the
empty failure set to the fixed all-passed inference whose recovery is
empty and whose advice is absent. -/
theorem c1_empty_failures_all_passed (w : World) (h : issues_all w = []) :
    (run_diagnostics w).analysis = [all_passed_msg] ∧
    infer_root_cause ∅ = all_passed_result ∧
    all_passed_result.recovery = "" ∧ all_passed_result.advice = none := by
  refine ⟨?_, rfl, rfl, rfl⟩
  show analysis_run w = [all_passed_msg]
  unfold analysis_run
  rw [h]
  rfl

theorem c1_empty_failures_all_passed_witness :
    issues_all w_all_ok = [] ∧
    ((run_diagnostics w_all_ok).analysis = [all_passed_msg] ∧
      infer_root_cause ∅ = all_passed_result ∧
      all_passed_result.recovery = "" ∧ all_passed_result.advice = none) :=
  ⟨by decide, c1_empty_failures_all_passed w_all_ok (by decide)⟩

/-- C2: on the failure set consisting of exactly Physical, Data Link
and Network, the spec-modelled Root-Cause Engine yields the inference
of rule 8 (total local failure), which differs from the inferences of
the single-layer rules 1 to 3 and from the generic fallback. -/
theorem c2_rule8_wins_on_total_local_failure :
    infer_root_cause {Layer.physical, Layer.dataLink, Layer.network} = rule8_result ∧
    rule8_result ≠ rule1_result ∧ rule8_result ≠ rule2_result ∧
    rule8_result ≠ rule3_result ∧ rule8_result ≠ fallback_result := by
  refine ⟨by decide, by decide, by decide, by decide, by decide⟩

/-- C3: every run records a probe step for each of the seven layers in
strictly ascending order regardless of the world (so no later probe is
skipped after an earlier failure), and the layer_results dictionary
holds exactly one entry per layer, in order, with no duplicate and no
omission. -/
theorem c3_all_seven_probes_in_order (w : World) :
    (run_diagnostics w).events.filterMap Event.layerOfProbe = osi_layers ∧
    (run_diagnostics w).layer_results.map Prod.fst = osi_layers ∧
    osi_layers.Nodup :=
  ⟨rfl, rfl, by decide⟩

/-- C4 counterexample: on a host whose actual default gateway is
10.0.0.1 the layer-2 probe still pings the hardcoded address, so the
target is not the gateway detected for the current host. -/
theorem c4_cex_hardcoded_not_gateway :
    ¬ (layer2_ping_target w_other_gateway = w_other_gateway.default_gateway) := by
  decide

/-- C4 amended: in every run the layer-2 probe sends its ICMP echo to
the fixed hardcoded address 192.168.50.1, independent of the host's
actual default gateway. -/
theorem c4_amended_fixed_ping_target (w : World) :
    layer2_ping_target w = "192.168.50.1" ∧
    Event.net "2 - Data Link" "ping" "192.168.50.1" ∈ (run_diagnostics w).events :=
  ⟨rfl, List.Mem.tail _ (List.Mem.head _)⟩

/-- C5 counterexample: in a world where a TLS handshake to the target
host would fail but the local SSL-context construction succeeds, layer
6 is still recorded as passed, so the recorded result does not track
the handshake outcome. -/
theorem c5_cex_no_tls_handshake :
    ¬ (layer6_passed w_tls_broken = w_tls_broken.tls_handshake_ok) := by
  decide

/-- C5 amended: the Presentation step performs no network operation at
all; it records the layer as passed exactly when the local
ssl.create_default_context call succeeds. -/
theorem c5_amended_local_ssl_context_only (w : World) :
    layer6_passed w = w.ssl_context.isNone ∧
    (run_diagnostics w).layer_results.lookup "6 - Presentation" =
      some w.ssl_context.isNone ∧
    "6 - Presentation" ∉ (run_diagnostics w).events.filterMap Event.netLayer := by
  refine ⟨rfl, rfl, ?_⟩
  intro h
  simp [run_diagnostics, events_run, Event.netLayer] at h

/-- C6: in every run the recorded Session result equals the recorded
Transport result: layer 5 is derived from layer 4 with no independent
probe. -/
theorem c6_session_mirrors_transport (w : World) :
    (run_diagnostics w).layer_results.lookup "5 - Session" =
      (run_diagnostics w).layer_results.lookup "4 - Transport" ∧
    layer5_passed w = layer4_passed w := by
  have h := layer5_eq_layer4 w
  refine ⟨?_, h⟩
  show some (layer5_passed w) = some (layer4_passed w)
  rw [h]

/-- C7 counterexample: when the ping subprocess completes with a
nonzero return code and empty stderr (a reply-less ping), ping_host
returns failure whose error string is empty, so the error text is not
always non-empty and descriptive. -/
theorem c7_cex_empty_error_text :
    (SubprocessResult.completed 1 "").failed = true ∧
    ping_host (SubprocessResult.completed 1 "") = (false, some "") ∧
    ("" : String).isEmpty = true := by
  decide

/-- C7 amended: on every failing underlying call, ping_host and
tcp_connect return succeeded equal to false together with the
underlying error text (the exception message or the stripped stderr)
instead of propagating the exception; the error string is present but
is not guaranteed non-empty. -/
theorem c7_amended_probes_never_raise (r : SubprocessResult) (c : ConnectResult)
    (hr : r.failed = true) (hc : c.failed = true) :
    (ping_host r).1 = false ∧ (ping_host r).2.isSome = true ∧
    (tcp_connect c).1 = false ∧ (tcp_connect c).2.1 = none ∧
    (tcp_connect c).2.2.isSome = true := by
  have hc2 : (tcp_connect c).1 = false ∧ (tcp_connect c).2.1 = none ∧
      (tcp_connect c).2.2.isSome = true := by
    cases c with
    | connected ms => simp [ConnectResult.failed] at hc
    | raised m => exact ⟨rfl, rfl, rfl⟩
  cases r with
  | completed rc e =>
    have hne : ¬ rc = 0 := by simpa [SubprocessResult.failed] using hr
    have hbeq : (rc == 0) = false := by simpa using hne
    exact ⟨by simp [ping_host, hbeq], by simp [ping_host, hbeq], hc2⟩
  | raised m => exact ⟨rfl, rfl, hc2⟩

theorem c7_amended_probes_never_raise_witness :
    (SubprocessResult.raised "timed out").failed = true ∧
    (ConnectResult.raised "Connection refused").failed = true ∧
    ((ping_host (SubprocessResult.raised "timed out")).1 = false ∧
      (ping_host (SubprocessResult.raised "timed out")).2.isSome = true ∧
      (tcp_connect (ConnectResult.raised "Connection refused")).1 = false ∧
      (tcp_connect (ConnectResult.raised "Connection refused")).2.1 = none ∧
      (tcp_connect (ConnectResult.raised "Connection refused")).2.2.isSome = true) :=
  ⟨rfl, rfl, c7_amended_probes_never_raise
    (SubprocessResult.raised "timed out")
    (ConnectResult.raised "Connection refused") rfl rfl⟩

/-- C8 counterexample: an all-passing run returns no value to its
caller: the return value of run_diagnostics is None, not a pair of the
layer results and an inference. -/
theorem c8_cex_returns_none :
    (run_diagnostics w_all_ok).returns.isSome = false ∧
    (run_diagnostics w_all_ok).returns = none :=
  ⟨rfl, rfl⟩

/-- C8 amended: every invocation terminates having recorded exactly one
result per layer and logged at least one analysis message (the fixed
all-passed line or per-layer suggestions), but it returns None rather
than a pair of the ordered layer results and an inference; results are
exposed through module state instead. -/
theorem c8_amended_state_not_return (w : World) :
    (run_diagnostics w).analysis ≠ [] ∧
    (run_diagnostics w).layer_results.map Prod.fst = osi_layers ∧
    (run_diagnostics w).returns = none :=
  ⟨analysis_run_ne_nil w, rfl, rfl⟩

/-- C9 counterexample: in an all-passing run the spinner flag is not
cleared immediately after the last probe completes: the event right
after the layer-7 probe is the analysis section, not the flag clear. -/
theorem c9_cex_not_immediately_after_probes :
    (run_diagnostics w_all_ok).events.findIdx (fun e => e == Event.spinnerStop) ≠
      (run_diagnostics w_all_ok).events.findIdx
        (fun e => e == Event.probe "7 - Application") + 1 := by
  decide

/-- C9 amended: in every run the spinner flag is set to false exactly
once, after the last probe completes (with the analysis, the report
file write and the OSI overview in between, so not immediately after),
and the spinner thread is joined exactly once, after the flag clear and
before the run reports completion. -/
theorem c9_amended_flag_once_then_join (w : World) :
    (run_diagnostics w).events.count Event.spinnerStop = 1 ∧
    (run_diagnostics w).events.count Event.spinnerJoin = 1 ∧
    (run_diagnostics w).events.findIdx (fun e => e == Event.probe "7 - Application") <
      (run_diagnostics w).events.findIdx (fun e => e == Event.spinnerStop) ∧
    (run_diagnostics w).events.findIdx (fun e => e == Event.spinnerStop) <
      (run_diagnostics w).events.findIdx (fun e => e == Event.spinnerJoin) ∧
    (run_diagnostics w).events.findIdx (fun e => e == Event.spinnerJoin) <
      (run_diagnostics w).events.findIdx (fun e => e == Event.reportDone) := by
  refine ⟨rfl, rfl, ?_, ?_, ?_⟩
  · show (10 : Nat) < 14
    decide
  · show (14 : Nat) < 15
    decide
  · show (15 : Nat) < 16
    decide

set_option maxHeartbeats 1000000 in
/-- C10: the recorded Presentation result is the same in any two runs
whose local SSL-context outcomes agree, however their network
interactions differ; it equals the success of the local
ssl.create_default_context call, and no network operation is performed
for layer 6. -/
theorem c10_presentation_independent_of_network (w1 w2 : World)
    (h : w1.ssl_context = w2.ssl_context) :
    (run_diagnostics w1).layer_results.lookup "6 - Presentation" =
      (run_diagnostics w2).layer_results.lookup "6 - Presentation" ∧
    (run_diagnostics w1).layer_results.lookup "6 - Presentation" =
      some w1.ssl_context.isNone ∧
    "6 - Presentation" ∉ (run_diagnostics w1).events.filterMap Event.netLayer := by
  refine ⟨?_, rfl, ?_⟩
  · show some w1.ssl_context.isNone = some w2.ssl_context.isNone
    rw [h]
  · intro hmem
    simp [run_diagnostics, events_run, Event.netLayer] at hmem

theorem c10_presentation_independent_of_network_witness :
    w_all_ok.ssl_context = w_net_down.ssl_context ∧
    ((run_diagnostics w_all_ok).layer_results.lookup "6 - Presentation" =
      (run_diagnostics w_net_down).layer_results.lookup "6 - Presentation" ∧
    (run_diagnostics w_all_ok).layer_results.lookup "6 - Presentation" =
      some w_all_ok.ssl_context.isNone ∧
    "6 - Presentation" ∉ (run_diagnostics w_all_ok).events.filterMap Event.netLayer) :=
  ⟨rfl, c10_presentation_independent_of_network w_all_ok w_net_down rfl⟩

end NetTester
